import Mathlib

/-!
Verification of the WebAuthn modular-signer pipeline
(src/plugins/modularPermission/signers/toWebAuthnSigner.ts).

The development shallowly embeds the signer: network and authenticator
interactions are supplied as explicit environment values, bytes are
List Nat with entries below 256, and the ABI encoding follows the
standard head/tail layout used by encodeAbiParameters for the tuple
(bytes, string, uint256, uint256, uint256, uint256, bool).

Helper utilities imported from webAuthnUtils.js (b64ToBytes,
findQuoteIndices, isRIP7212SupportedNetwork, parseAndNormalizeSig,
uint8ArrayToHexString) are not part of the sources at hand; they are
modelled from the specification, as indicated on each definition.
-/

set_option maxRecDepth 100000

namespace WebAuthnSigner

/-! ## Bytes and big-endian words -/

/-- Big-endian base-256 value of a byte list. -/
def beNat (bs : List Nat) : Nat := bs.foldl (fun a b => a * 256 + b) 0

/-- Big-endian digits, lowest digit last, of n modulo 256 ^ k. -/
def beWordAux : Nat → Nat → List Nat
  | 0, _ => []
  | k + 1, n => beWordAux k (n / 256) ++ [n % 256]

/-- The 32-byte big-endian ABI word encoding n modulo 2 ^ 256. -/
def beWord (n : Nat) : List Nat := beWordAux 32 n

theorem beWordAux_length (k n : Nat) : (beWordAux k n).length = k := by
  induction k generalizing n with
  | zero => rfl
  | succ k ih => simp [beWordAux, ih]

theorem beWord_length (n : Nat) : (beWord n).length = 32 :=
  beWordAux_length 32 n

theorem beNat_foldl (a : Nat) (l : List Nat) :
    List.foldl (fun x b => x * 256 + b) a l = a * 256 ^ l.length + beNat l := by
  induction l generalizing a with
  | nil => simp [beNat]
  | cons b t ih =>
      show List.foldl _ (a * 256 + b) t = _
      rw [ih (a * 256 + b)]
      have hbt : beNat (b :: t) = b * 256 ^ t.length + beNat t := by
        have hb : beNat (b :: t) = List.foldl (fun x c => x * 256 + c) b t := by
          simp [beNat]
        rw [hb, ih b]
      rw [hbt]
      simp only [List.length_cons, pow_succ]
      ring

theorem beNat_append (l₁ l₂ : List Nat) :
    beNat (l₁ ++ l₂) = beNat l₁ * 256 ^ l₂.length + beNat l₂ := by
  have h : beNat (l₁ ++ l₂)
      = List.foldl (fun x b => x * 256 + b) (beNat l₁) l₂ := by
    simp [beNat, List.foldl_append]
  rw [h, beNat_foldl]

theorem beNat_beWordAux (k n : Nat) : beNat (beWordAux k n) = n % 256 ^ k := by
  induction k generalizing n with
  | zero => simp [beWordAux, beNat, Nat.mod_one]
  | succ k ih =>
      rw [beWordAux, beNat_append, ih]
      simp only [List.length_cons, List.length_nil, zero_add, pow_one]
      have h1 : beNat [n % 256] = n % 256 := by simp [beNat]
      rw [h1, pow_succ', Nat.mod_mul]
      ring

theorem beNat_beWord (n : Nat) : beNat (beWord n) = n % 2 ^ 256 := by
  have h : (256 : Nat) ^ 32 = 2 ^ 256 := by norm_num
  rw [beWord, beNat_beWordAux, h]

theorem beNat_beWord_of_lt {n : Nat} (h : n < 2 ^ 256) : beNat (beWord n) = n := by
  rw [beNat_beWord, Nat.mod_eq_of_lt h]

theorem beWordAux_lt (k n : Nat) : ∀ b ∈ beWordAux k n, b < 256 := by
  induction k generalizing n with
  | zero => intro b hb; simp [beWordAux] at hb
  | succ k ih =>
      intro b hb
      simp only [beWordAux, List.mem_append, List.mem_singleton] at hb
      rcases hb with hb | hb
      · exact ih (n / 256) b hb
      · subst hb; exact Nat.mod_lt _ (by norm_num)

theorem beWord_lt (n : Nat) : ∀ b ∈ beWord n, b < 256 := beWordAux_lt 32 n

theorem beNat_lt_of_lt (bs : List Nat) (h : ∀ b ∈ bs, b < 256) :
    beNat bs < 256 ^ bs.length := by
  induction bs using List.reverseRecOn with
  | nil => simp [beNat]
  | append_singleton t b ih =>
      rw [beNat_append]
      have hb : b < 256 := h b (by simp)
      have ht : beNat t < 256 ^ t.length := ih fun x hx => h x (by simp [hx])
      have hbn : beNat [b] = b := by simp [beNat]
      rw [hbn]
      simp only [List.length_append, List.length_singleton, pow_succ, pow_one]
      calc beNat t * 256 ^ 1 + b ≤ (256 ^ t.length - 1) * 256 + 255 := by
            have := Nat.le_sub_one_of_lt ht
            have h1 : (256 : Nat) ^ 1 = 256 := by norm_num
            rw [h1]
            omega
        _ < 256 ^ t.length * 256 := by
            have hpos : 1 ≤ (256 : Nat) ^ t.length := Nat.one_le_pow _ _ (by norm_num)
            omega

/-! ## Hex strings -/

/-- Lowercase hex digit for a value below 16, as produced by the
byte-to-hex conversion. -/
def hexDigit (n : Nat) : Char :=
  if n < 10 then Char.ofNat (48 + n) else Char.ofNat (87 + n)

/-- Modelled from the spec: uint8ArrayToHexString from webAuthnUtils.js is
absent from the sources at hand; it renders a byte array as a 0x-prefixed
lowercase hex string, the form consumed by the ABI encoder and by the
signature normalizer. -/
def uint8ArrayToHexString (bs : List Nat) : String :=
  ⟨'0' :: 'x' :: (bs.map fun b => [hexDigit (b / 16), hexDigit (b % 16)]).flatten⟩

/-- Numeric value of a single hex digit, if any. -/
def hexVal (c : Char) : Option Nat :=
  if 48 ≤ c.toNat ∧ c.toNat ≤ 57 then some (c.toNat - 48)
  else if 97 ≤ c.toNat ∧ c.toNat ≤ 102 then some (c.toNat - 87)
  else if 65 ≤ c.toNat ∧ c.toNat ≤ 70 then some (c.toNat - 55)
  else none

theorem hexVal_lt {c : Char} {v : Nat} (h : hexVal c = some v) : v < 16 := by
  unfold hexVal at h
  split_ifs at h <;> simp only [Option.some.injEq] at h <;> omega

/-- Decodes an even-length run of hex digits into bytes. -/
def hexPairsToBytes : List Char → Option (List Nat)
  | [] => some []
  | c₁ :: c₂ :: rest => do
      let v₁ ← hexVal c₁
      let v₂ ← hexVal c₂
      let tail ← hexPairsToBytes rest
      pure ((v₁ * 16 + v₂) :: tail)
  | [_] => none

/-- Decodes a 0x-prefixed hex string into bytes; none models the exception
the hex parser of the ABI encoder throws on malformed input. -/
def bytesFromHex (s : String) : Option (List Nat) :=
  match s.data with
  | '0' :: 'x' :: rest => hexPairsToBytes rest
  | _ => none

theorem hexVal_hexDigit {n : Nat} (h : n < 16) : hexVal (hexDigit n) = some n := by
  interval_cases n <;> rfl

theorem hexPairsToBytes_round (bs : List Nat) (h : ∀ b ∈ bs, b < 256) :
    hexPairsToBytes ((bs.map fun b => [hexDigit (b / 16), hexDigit (b % 16)]).flatten)
      = some bs := by
  induction bs with
  | nil => rfl
  | cons b t ih =>
      have hb : b < 256 := h b (by simp)
      have h₁ : b / 16 < 16 := by omega
      have h₂ : b % 16 < 16 := Nat.mod_lt _ (by norm_num)
      have hdm : b / 16 * 16 + b % 16 = b := by omega
      have hflat : ((b :: t).map fun x => [hexDigit (x / 16), hexDigit (x % 16)]).flatten
          = hexDigit (b / 16) :: hexDigit (b % 16)
            :: (t.map fun x => [hexDigit (x / 16), hexDigit (x % 16)]).flatten := by
        simp
      rw [hflat]
      simp [hexPairsToBytes, hexVal_hexDigit h₁, hexVal_hexDigit h₂,
        ih fun x hx => h x (by simp [hx]), hdm]

theorem bytesFromHex_uint8ArrayToHexString (bs : List Nat)
    (h : ∀ b ∈ bs, b < 256) :
    bytesFromHex (uint8ArrayToHexString bs) = some bs := by
  simp only [bytesFromHex, uint8ArrayToHexString]
  exact hexPairsToBytes_round bs h

/-! ## Base64 -/

/-- Value of one base64 alphabet character. -/
def b64Val (c : Char) : Option Nat :=
  if 65 ≤ c.toNat ∧ c.toNat ≤ 90 then some (c.toNat - 65)
  else if 97 ≤ c.toNat ∧ c.toNat ≤ 122 then some (c.toNat - 71)
  else if 48 ≤ c.toNat ∧ c.toNat ≤ 57 then some (c.toNat + 4)
  else if c.toNat = 43 then some 62
  else if c.toNat = 47 then some 63
  else none

theorem b64Val_lt {c : Char} {v : Nat} (h : b64Val c = some v) : v < 64 := by
  unfold b64Val at h
  split_ifs at h <;> simp only [Option.some.injEq] at h <;> omega

/-- Decodes one four-character base64 block, honouring terminal padding. -/
def b64DecodeChunk : List Char → Option (List Nat)
  | [a, b, '=', '='] => do
      let va ← b64Val a
      let vb ← b64Val b
      pure [va * 4 + vb / 16]
  | [a, b, c, '='] => do
      let va ← b64Val a
      let vb ← b64Val b
      let vc ← b64Val c
      pure [va * 4 + vb / 16, vb % 16 * 16 + vc / 4]
  | [a, b, c, d] => do
      let va ← b64Val a
      let vb ← b64Val b
      let vc ← b64Val c
      let vd ← b64Val d
      pure [va * 4 + vb / 16, vb % 16 * 16 + vc / 4, vc % 4 * 64 + vd]
  | _ => none

/-- Decodes a base64 character sequence; padding may occur only in the
final block. -/
def b64DecodeList : List Char → Option (List Nat)
  | [] => some []
  | a :: b :: c :: d :: rest => do
      let chunk ← b64DecodeChunk [a, b, c, d]
      match rest with
      | [] => pure chunk
      | _ =>
          if c = '=' ∨ d = '=' then none
          else do
            let tail ← b64DecodeList rest
            pure (chunk ++ tail)
  | _ => none

/-- Modelled from the spec: b64ToBytes from webAuthnUtils.js is absent from
the sources at hand; it decodes a base64 string into its byte array, failing
on input that is not well-formed base64. -/
def b64ToBytes (s : String) : Option (List Nat) := b64DecodeList s.data

/-- Modelled from the spec: the browser atob primitive used on
cred.response.clientDataJSON; it decodes base64 and yields the decoded
bytes as a character string. -/
def atobString (s : String) : Option String :=
  (b64ToBytes s).map fun bs => ⟨bs.map Char.ofNat⟩

theorem b64DecodeChunk_lt {cs : List Char} {bs : List Nat}
    (h : b64DecodeChunk cs = some bs) : ∀ x ∈ bs, x < 256 := by
  unfold b64DecodeChunk at h
  split at h
  · simp only [Option.bind_eq_bind, Option.bind_eq_some, Option.pure_def,
      Option.some.injEq] at h
    obtain ⟨va, hva, vb, hvb, rfl⟩ := h
    have h1 := b64Val_lt hva
    have h2 := b64Val_lt hvb
    intro x hx
    simp only [List.mem_singleton] at hx
    omega
  · simp only [Option.bind_eq_bind, Option.bind_eq_some, Option.pure_def,
      Option.some.injEq] at h
    obtain ⟨va, hva, vb, hvb, vc, hvc, rfl⟩ := h
    have h1 := b64Val_lt hva
    have h2 := b64Val_lt hvb
    have h3 := b64Val_lt hvc
    intro x hx
    simp only [List.mem_cons, List.mem_singleton, List.not_mem_nil, or_false] at hx
    have hb1 : vb % 16 < 16 := Nat.mod_lt _ (by norm_num)
    rcases hx with rfl | rfl <;> omega
  · simp only [Option.bind_eq_bind, Option.bind_eq_some, Option.pure_def,
      Option.some.injEq] at h
    obtain ⟨va, hva, vb, hvb, vc, hvc, vd, hvd, rfl⟩ := h
    have h1 := b64Val_lt hva
    have h2 := b64Val_lt hvb
    have h3 := b64Val_lt hvc
    have h4 := b64Val_lt hvd
    intro x hx
    simp only [List.mem_cons, List.mem_singleton, List.not_mem_nil, or_false] at hx
    have hb1 : vb % 16 < 16 := Nat.mod_lt _ (by norm_num)
    have hb2 : vc % 4 < 4 := Nat.mod_lt _ (by norm_num)
    rcases hx with rfl | rfl | rfl <;> omega
  · exact absurd h (by simp)

theorem b64DecodeList_lt :
    ∀ cs bs, b64DecodeList cs = some bs → ∀ x ∈ bs, x < 256
  | [], bs, h => by
      simp only [b64DecodeList, Option.some.injEq] at h
      subst h; intro x hx; simp at hx
  | [a], bs, h => by simp [b64DecodeList] at h
  | [a, b], bs, h => by simp [b64DecodeList] at h
  | [a, b, c], bs, h => by simp [b64DecodeList] at h
  | a :: b :: c :: d :: rest, bs, h => by
      unfold b64DecodeList at h
      rcases hch : b64DecodeChunk [a, b, c, d] with _ | chunk
      · simp [hch] at h
      · rw [hch] at h
        have hcb := b64DecodeChunk_lt hch
        cases rest with
        | nil =>
            simp only [Option.bind_eq_bind, Option.some_bind, Option.pure_def,
              Option.some.injEq] at h
            subst h; exact hcb
        | cons r rs =>
            simp only [Option.bind_eq_bind, Option.some_bind] at h
            by_cases hpad : c = '=' ∨ d = '='
            · simp [hpad] at h
            · rw [if_neg hpad] at h
              rcases htl : b64DecodeList (r :: rs) with _ | tail
              · simp [htl] at h
              · rw [htl] at h
                simp only [Option.some_bind, Option.pure_def,
                  Option.some.injEq] at h
                subst h
                intro x hx
                rcases List.mem_append.mp hx with hx | hx
                · exact hcb x hx
                · exact b64DecodeList_lt (r :: rs) tail htl x hx

theorem b64ToBytes_lt {s : String} {bs : List Nat}
    (h : b64ToBytes s = some bs) : ∀ x ∈ bs, x < 256 :=
  b64DecodeList_lt s.data bs h

/-! ## Errors -/

/-- Failure modes of the signing pipeline; each models one throw site or
one rejected promise of the embedded code. -/
inductive SignError where
  | unsupportedMessageFormat
  | initiateNetworkError
  | initiateJsonError
  | assertionAborted
  | verifyNetworkError
  | verifyJsonError
  | serverSignatureRejected
  | invalidBase64
  | fieldNotFound
  | malformedSignature
  | encodingError
  | invalidTypedData
  | publicKeyUnavailable
deriving DecidableEq, Repr

instance {ε α : Type} [DecidableEq ε] [DecidableEq α] : DecidableEq (Except ε α)
  | .ok a, .ok b =>
      if h : a = b then isTrue (congrArg Except.ok h)
      else isFalse fun heq => h (Except.ok.inj heq)
  | .ok _, .error _ => isFalse fun heq => Except.noConfusion heq
  | .error _, .ok _ => isFalse fun heq => Except.noConfusion heq
  | .error e, .error f =>
      if h : e = f then isTrue (congrArg Except.error h)
      else isFalse fun heq => h (Except.error.inj heq)

/-! ## ClientDataLocator -/

/-- First index at which needle occurs as a contiguous sublist of the
haystack. -/
def substrIndex (needle : List Char) : List Char → Option Nat
  | [] => if needle = [] then some 0 else none
  | c :: rest =>
      if needle.isPrefixOf (c :: rest) then some 0
      else (substrIndex needle rest).map (· + 1)

/-- The marker preceding the type value in client-data JSON. -/
def typeMarker : List Char := ['"', 't', 'y', 'p', 'e', '"', ':', '"']

/-- The marker preceding the challenge value in client-data JSON. -/
def challengeMarker : List Char :=
  ['"', 'c', 'h', 'a', 'l', 'l', 'e', 'n', 'g', 'e', '"', ':', '"']

/-- Offsets of the type value and the challenge value inside client-data
JSON, each just past the opening quote of the value. -/
structure QuoteIndices where
  beforeType : Nat
  beforeChallenge : Nat
deriving DecidableEq, Repr

/-- Modelled from the spec: findQuoteIndices from webAuthnUtils.js is absent
from the sources at hand; per the ClientDataLocator contract it locates, by
literal substring search and without a JSON parser, the byte offsets just
past the quote openings of the type and challenge values, and fails when
either marker is missing. -/
def findQuoteIndices (clientDataJSON : String) : Except SignError QuoteIndices :=
  match substrIndex typeMarker clientDataJSON.data,
      substrIndex challengeMarker clientDataJSON.data with
  | some ti, some ci => .ok ⟨ti + typeMarker.length, ci + challengeMarker.length⟩
  | _, _ => .error .fieldNotFound

/-! ## SignatureNormalizer -/

/-- Modelled from the spec: parseAndNormalizeSig from webAuthnUtils.js is
absent from the sources at hand; per the SignatureNormalizer contract it
takes the hex-encoded signature, requires a byte length of two fixed-width
32-byte components, and extracts (r, s) as unsigned big-endian integers,
failing on any other length. -/
def parseAndNormalizeSig (signatureHex : String) : Except SignError (Nat × Nat) :=
  match bytesFromHex signatureHex with
  | none => .error .malformedSignature
  | some bs =>
      if bs.length = 64 then .ok (beNat (bs.take 32), beNat (bs.drop 32))
      else .error .malformedSignature

/-! ## NetworkCapabilityResolver -/

/-- Modelled from the spec: the chain-id table behind
isRIP7212SupportedNetwork is configuration that lives outside the sources
at hand; a representative entry stands in for the configured set. -/
def rip7212SupportedNetworks : List Nat := [137]

/-- Modelled from the spec: isRIP7212SupportedNetwork from webAuthnUtils.js
is absent from the sources at hand; per the NetworkCapabilityResolver
contract it is a static lookup by chain id, with unknown chains mapping to
false. -/
def isRIP7212SupportedNetwork (chainId : Nat) : Bool :=
  rip7212SupportedNetworks.contains chainId

/-! ## ABI encoding -/

/-- UTF-8 bytes of one character. -/
def utf8Char (c : Char) : List Nat :=
  let n := c.toNat
  if n < 128 then [n]
  else if n < 2048 then [192 + n / 64, 128 + n % 64]
  else if n < 65536 then [224 + n / 4096, 128 + n / 64 % 64, 128 + n % 64]
  else [240 + n / 262144, 128 + n / 4096 % 64, 128 + n / 64 % 64, 128 + n % 64]

/-- UTF-8 bytes of a string, the form the ABI encoder hashes out for the
string parameter type. -/
def strBytes (s : String) : List Nat := (s.data.map utf8Char).flatten

/-- Pads a byte list on the right with zeros to a multiple of 32 bytes. -/
def padRight32 (bs : List Nat) : List Nat :=
  bs ++ List.replicate ((32 - bs.length % 32) % 32) 0

/-- Tail block of a dynamic ABI value: its length word followed by its
zero-padded content. -/
def dynTail (bs : List Nat) : List Nat := beWord bs.length ++ padRight32 bs

/-- ABI word for a bool parameter. -/
def boolWord (b : Bool) : List Nat := beWord (if b then 1 else 0)

/-- ABI encoding of the 7-tuple (bytes, string, uint256, uint256, uint256,
uint256, bool) in the head/tail layout of encodeAbiParameters: the two
dynamic fields contribute offset words in head slots 0 and 1 and their data
blocks after the 224-byte head, the five static fields occupy head slots 2
through 6. -/
def abiEncode7 (ad cdj : List Nat) (cl rt r s : Nat) (b : Bool) : List Nat :=
  let t1 := dynTail ad
  let t2 := dynTail cdj
  beWord 224 ++ beWord (224 + t1.length) ++ beWord cl ++ beWord rt
    ++ beWord r ++ beWord s ++ boolWord b ++ t1 ++ t2

/-- ABI encoding of the (uint256, uint256) pair, two static words. -/
def abiEncode2 (x y : Nat) : List Nat := beWord x ++ beWord y

/-- The ABI word found at head slot i of an encoded block. -/
def wordAt (bs : List Nat) (i : Nat) : Nat := beNat ((bs.drop (32 * i)).take 32)

/-- The content of the dynamic ABI field whose offset word sits at head
slot i: the length word at the offset is read and that many content bytes
follow it. -/
def dynFieldAt (bs : List Nat) (i : Nat) : List Nat :=
  (bs.drop (wordAt bs i + 32)).take (beNat ((bs.drop (wordAt bs i)).take 32))

/-! ## Messages -/

/-- The SignableMessage union of the embedded code: a plain string, an
object with a hex-string raw field, or an object with a byte-array raw
field. -/
inductive SignableMessage where
  | str (s : String)
  | rawHex (h : String)
  | rawBytes (b : List Nat)
deriving DecidableEq, Repr

/-- Removes a leading 0x from a string when present, the
startsWith-then-slice step of the code. -/
def strip0x (s : String) : String :=
  match s.data with
  | '0' :: 'x' :: rest => ⟨rest⟩
  | _ => s

/-- Message content extraction followed by 0x-stripping, exactly the two
steps the code performs before the sign-initiate request: a string is used
as is, a raw hex field is used as is, a raw byte array is rendered by its
default toString, the comma-separated decimal rendering; then a leading 0x
is removed when present. -/
def formatMessage (message : SignableMessage) : String :=
  strip0x
    (match message with
    | .str s => s
    | .rawHex h => h
    | .rawBytes b => String.intercalate "," (b.map toString))

/-! ## Protocol data -/

/-- Body of a successful sign-initiate response. -/
structure ChallengePayload where
  challenge : String
  allowCredentials : List String
deriving DecidableEq, Repr

/-- The platform authenticator assertion; only the base64 client-data JSON
of its response is consumed by the encoding. -/
structure Assertion where
  clientDataJSON : String
deriving DecidableEq, Repr

/-- Body of a sign-verify response. -/
structure VerifyResult where
  success : Bool
  authenticatorData : String
  signature : String
deriving DecidableEq, Repr

/-- An HTTP response: its success status and its parsed JSON body, none
standing for a body on which json() throws. The embedded code never reads
the status field, which is exactly what the C3 analysis is about. -/
structure HttpResponse (α : Type) where
  ok : Bool
  body : Option α
deriving DecidableEq, Repr

/-- Environment of one signing run: outcome of the sign-initiate fetch
(none models a rejected fetch), outcome of the authenticator interaction
(none models cancellation), outcome of the sign-verify fetch, and the
chain the client would report at call time, which construction-time
resolution makes irrelevant. -/
structure SignEnv where
  initiateOutcome : Option (HttpResponse ChallengePayload)
  assertionOutcome : Option Assertion
  verifyOutcome : Option (HttpResponse VerifyResult)
  currentChainId : Nat
deriving DecidableEq, Repr

/-- Observable steps of one signing run, in execution order; the
sign-initiate step records the data string submitted in the request body. -/
inductive Step where
  | initiateRequest (data : String)
  | startAuthentication
  | verifyRequest
  | decodeAuthenticatorData
  | decodeClientDataJSON
  | locateFields
  | normalizeSignature
  | abiEncodeStep
deriving DecidableEq, Repr

/-- Steps that are network calls. -/
def Step.isNetworkCall : Step → Bool
  | .initiateRequest _ => true
  | .verifyRequest => true
  | _ => false

/-- Steps of the post-verification encoding phase. -/
def Step.isEncodePhase : Step → Bool
  | .decodeAuthenticatorData => true
  | .decodeClientDataJSON => true
  | .locateFields => true
  | .normalizeSignature => true
  | .abiEncodeStep => true
  | _ => false

/-! ## Encoding portion of the pipeline -/

/-- The encodeAbiParameters call shared by the real and the dummy
signature: the authenticator data arrives as a 0x-hex string and is parsed
to bytes, the client-data JSON contributes its UTF-8 bytes, and the seven
fields are laid out in the fixed ABI order. -/
def encodeAbiSignature (authenticatorDataHex clientDataJSON : String)
    (challengeLocation responseTypeLocation r s : Nat)
    (usePrecompiled : Bool) : Option (List Nat) :=
  (bytesFromHex authenticatorDataHex).map fun ad =>
    abiEncode7 ad (strBytes clientDataJSON) challengeLocation
      responseTypeLocation r s usePrecompiled

/-- Everything the code runs after a successful sign-verify response:
base64-decode the authenticator data, base64-decode the client-data JSON,
locate the challenge and type values, parse and normalize the signature,
and ABI-encode the 7-tuple. Returns the executed steps with the result. -/
def buildEncodedSig (cred : Assertion) (verifyResult : VerifyResult)
    (chainId : Nat) : List Step × Except SignError (List Nat) :=
  match b64ToBytes verifyResult.authenticatorData with
  | none => ([.decodeAuthenticatorData], .error .invalidBase64)
  | some adBytes =>
      match atobString cred.clientDataJSON with
      | none =>
          ([.decodeAuthenticatorData, .decodeClientDataJSON],
            .error .invalidBase64)
      | some clientDataJSON =>
          match findQuoteIndices clientDataJSON with
          | .error e =>
              ([.decodeAuthenticatorData, .decodeClientDataJSON,
                .locateFields], .error e)
          | .ok qi =>
              match b64ToBytes verifyResult.signature with
              | none =>
                  ([.decodeAuthenticatorData, .decodeClientDataJSON,
                    .locateFields, .normalizeSignature], .error .invalidBase64)
              | some sigBytes =>
                  match parseAndNormalizeSig (uint8ArrayToHexString sigBytes) with
                  | .error e =>
                      ([.decodeAuthenticatorData, .decodeClientDataJSON,
                        .locateFields, .normalizeSignature], .error e)
                  | .ok (r, s) =>
                      match encodeAbiSignature (uint8ArrayToHexString adBytes)
                          clientDataJSON qi.beforeChallenge qi.beforeType r s
                          (isRIP7212SupportedNetwork chainId) with
                      | none =>
                          ([.decodeAuthenticatorData, .decodeClientDataJSON,
                            .locateFields, .normalizeSignature,
                            .abiEncodeStep], .error .encodingError)
                      | some out =>
                          ([.decodeAuthenticatorData, .decodeClientDataJSON,
                            .locateFields, .normalizeSignature,
                            .abiEncodeStep], .ok out)

/-! ## The signMessage pipeline -/

/-- One run of signMessageUsingWebAuthn: format the message, POST it to
sign-initiate, invoke the authenticator, POST the assertion to sign-verify,
check the success flag, then build the encoded signature. The HTTP status
of the initiate response is never consulted, faithfully to the code. -/
def runSignMessage (chainId : Nat) (env : SignEnv)
    (message : SignableMessage) : List Step × Except SignError (List Nat) :=
  let formattedMessage := formatMessage message
  match env.initiateOutcome with
  | none => ([.initiateRequest formattedMessage], .error .initiateNetworkError)
  | some signInitiateResponse =>
      match signInitiateResponse.body with
      | none => ([.initiateRequest formattedMessage], .error .initiateJsonError)
      | some _signInitiateResult =>
          match env.assertionOutcome with
          | none =>
              ([.initiateRequest formattedMessage, .startAuthentication],
                .error .assertionAborted)
          | some cred =>
              match env.verifyOutcome with
              | none =>
                  ([.initiateRequest formattedMessage, .startAuthentication,
                    .verifyRequest], .error .verifyNetworkError)
              | some verifyResponse =>
                  match verifyResponse.body with
                  | none =>
                      ([.initiateRequest formattedMessage,
                        .startAuthentication, .verifyRequest],
                        .error .verifyJsonError)
                  | some verifyResult =>
                      if verifyResult.success then
                        let built := buildEncodedSig cred verifyResult chainId
                        ([.initiateRequest formattedMessage,
                          .startAuthentication, .verifyRequest] ++ built.1,
                          built.2)
                      else
                        ([.initiateRequest formattedMessage,
                          .startAuthentication, .verifyRequest],
                          .error .serverSignatureRejected)

/-! ## The facade -/

/-- A WebAuthn public key, two unsigned 256-bit coordinates. -/
structure WebAuthnKey where
  pubX : Nat
  pubY : Nat
deriving DecidableEq, Repr

/-- Address constant from src/plugins/permission/constants.ts. -/
def WEBAUTHN_SIGNER_CONTRACT : String :=
  "0x8AA55d4BfAE101609078681A69B5bc3181516612"

/-- Construction parameters of toWebAuthnSigner that the embedding needs:
the optional signer contract address override and the optional caller
supplied public key. -/
structure WebAuthnModularSignerParams where
  signerContractAddress : Option String
  pubKey : Option WebAuthnKey
deriving DecidableEq, Repr

/-- External outcomes observed during construction: the key the
provisioning collaborator would return (none when no key is found) and the
chain id the client reports at construction time. -/
structure ConstructionEnv where
  provisionedKey : Option WebAuthnKey
  clientChainId : Nat
deriving DecidableEq, Repr

/-- The constructed signer: the closed-over pubKey variable, the signer
contract address, and the chain id resolved once at construction. -/
structure ModularSignerModel where
  pubKey : Option WebAuthnKey
  signerContractAddress : String
  chainId : Nat
deriving DecidableEq, Repr

/-- Construction of the modular signer: take the caller key or fall back
to the provisioning collaborator, fail when neither yields a key, then
resolve the chain id once and close over it. -/
def toWebAuthnSigner (cenv : ConstructionEnv)
    (params : WebAuthnModularSignerParams) :
    Except SignError ModularSignerModel :=
  let pubKey :=
    match params.pubKey with
    | some k => some k
    | none => cenv.provisionedKey
  match pubKey with
  | none => .error .publicKeyUnavailable
  | some k =>
      .ok { pubKey := some k,
            signerContractAddress :=
              params.signerContractAddress.getD WEBAUTHN_SIGNER_CONTRACT,
            chainId := cenv.clientChainId }

/-- The getSignerData method: guard on the closed-over key, then ABI-encode
the (pubX, pubY) pair. -/
def ModularSignerModel.getSignerData (s : ModularSignerModel) :
    Except SignError (List Nat) :=
  match s.pubKey with
  | none => .error .publicKeyUnavailable
  | some k => .ok (abiEncode2 k.pubX k.pubY)

/-- The signMessage method closes over the construction-time chain id. -/
def ModularSignerModel.signMessage (s : ModularSignerModel) (env : SignEnv)
    (message : SignableMessage) : List Step × Except SignError (List Nat) :=
  runSignMessage s.chainId env message

/-! ## Dummy signature constants -/

/-- Placeholder authenticator data of the dummy signature, 74 f digits. -/
def dummyAuthenticatorDataHex : String :=
  "0xffffffffffffffffffffffffffffffffffffffffffffffffffffffffffffffffffffffffff"

/-- Placeholder client-data JSON of the dummy signature. -/
def dummyClientDataJSON : String :=
  "\x7b\"type\":\"webauthn.get\",\"challenge\":\"aaaaaaaaaaaaaaaaaaaaaaaaaaaaaaaaaaaaaaaaaaa\",\"origin\":\"https://example.com\"\x7d"

/-- Placeholder r of the dummy signature, 77 repeated 1 digits. -/
def dummyR : Nat :=
  11111111111111111111111111111111111111111111111111111111111111111111111111111

/-- Placeholder s of the dummy signature, 77 repeated 2 digits. -/
def dummyS : Nat :=
  22222222222222222222222222222222222222222222222222222222222222222222222222222

/-- Largest unsigned 256-bit value, the maxUint256 of the viem library. -/
def maxUint256 : Nat := 2 ^ 256 - 1

/-- The getDummySignature method: the same encodeAbiParameters call as the
real signature, applied to fixed placeholder values and to the resolver
result for the construction-time chain id. -/
def ModularSignerModel.getDummySignature (s : ModularSignerModel) :
    Option (List Nat) :=
  encodeAbiSignature dummyAuthenticatorDataHex dummyClientDataJSON
    maxUint256 maxUint256 dummyR dummyS
    (isRIP7212SupportedNetwork s.chainId)

/-! ## signTypedData -/

/-- Typed-data input, abstracted at the boundary of the external viem
collaborators: valid is the verdict of validateTypedData (false models the
throw) and hash is the hashTypedData digest that would be signed. -/
structure TypedDataInput where
  valid : Bool
  hash : String
deriving DecidableEq, Repr

/-- One run of the signTypedData method: validate locally first and throw
InvalidTypedData before anything else happens, otherwise sign the typed
data hash through the same pipeline as signMessage. -/
def runSignTypedData (chainId : Nat) (env : SignEnv) (td : TypedDataInput) :
    List Step × Except SignError (List Nat) :=
  if td.valid then runSignMessage chainId env (.str td.hash)
  else ([], .error .invalidTypedData)

/-- The signTypedData method closes over the construction-time chain id. -/
def ModularSignerModel.signTypedData (s : ModularSignerModel) (env : SignEnv)
    (td : TypedDataInput) : List Step × Except SignError (List Nat) :=
  runSignTypedData s.chainId env td

/-! ## Decoding the ABI layout -/

theorem wordAt_zero_append {w rest : List Nat} (hw : w.length = 32) :
    wordAt (w ++ rest) 0 = beNat w := by
  unfold wordAt
  rw [Nat.mul_zero, List.drop_zero, List.take_left' hw]

theorem wordAt_succ_append {w rest : List Nat} (i : Nat) (hw : w.length = 32) :
    wordAt (w ++ rest) (i + 1) = wordAt rest i := by
  unfold wordAt
  have h : 32 * (i + 1) = w.length + 32 * i := by rw [hw]; ring
  rw [h, List.drop_append]

theorem boolWord_length (b : Bool) : (boolWord b).length = 32 := by
  unfold boolWord; exact beWord_length _

/-- The 224-byte head of the 7-tuple layout, as a right-nested append. -/
theorem abiEncode7_eq_nested (ad cdj : List Nat) (cl rt r s : Nat) (b : Bool) :
    abiEncode7 ad cdj cl rt r s b
      = beWord 224 ++ (beWord (224 + (dynTail ad).length) ++ (beWord cl
        ++ (beWord rt ++ (beWord r ++ (beWord s ++ (boolWord b
        ++ (dynTail ad ++ dynTail cdj))))))) := by
  simp [abiEncode7, List.append_assoc]

theorem wordAt7 (w0 w1 w2 w3 w4 w5 w6 rest : List Nat)
    (h0 : w0.length = 32) (h1 : w1.length = 32) (h2 : w2.length = 32)
    (h3 : w3.length = 32) (h4 : w4.length = 32) (h5 : w5.length = 32)
    (h6 : w6.length = 32) :
    wordAt (w0 ++ (w1 ++ (w2 ++ (w3 ++ (w4 ++ (w5 ++ (w6 ++ rest))))))) 0
        = beNat w0 ∧
    wordAt (w0 ++ (w1 ++ (w2 ++ (w3 ++ (w4 ++ (w5 ++ (w6 ++ rest))))))) 1
        = beNat w1 ∧
    wordAt (w0 ++ (w1 ++ (w2 ++ (w3 ++ (w4 ++ (w5 ++ (w6 ++ rest))))))) 2
        = beNat w2 ∧
    wordAt (w0 ++ (w1 ++ (w2 ++ (w3 ++ (w4 ++ (w5 ++ (w6 ++ rest))))))) 3
        = beNat w3 ∧
    wordAt (w0 ++ (w1 ++ (w2 ++ (w3 ++ (w4 ++ (w5 ++ (w6 ++ rest))))))) 4
        = beNat w4 ∧
    wordAt (w0 ++ (w1 ++ (w2 ++ (w3 ++ (w4 ++ (w5 ++ (w6 ++ rest))))))) 5
        = beNat w5 ∧
    wordAt (w0 ++ (w1 ++ (w2 ++ (w3 ++ (w4 ++ (w5 ++ (w6 ++ rest))))))) 6
        = beNat w6 := by
  refine ⟨wordAt_zero_append h0, ?_, ?_, ?_, ?_, ?_, ?_⟩
  · rw [show (1 : Nat) = 0 + 1 from rfl, wordAt_succ_append 0 h0,
      wordAt_zero_append h1]
  · rw [show (2 : Nat) = 1 + 1 from rfl, wordAt_succ_append 1 h0,
      show (1 : Nat) = 0 + 1 from rfl, wordAt_succ_append 0 h1,
      wordAt_zero_append h2]
  · rw [show (3 : Nat) = 2 + 1 from rfl, wordAt_succ_append 2 h0,
      show (2 : Nat) = 1 + 1 from rfl, wordAt_succ_append 1 h1,
      show (1 : Nat) = 0 + 1 from rfl, wordAt_succ_append 0 h2,
      wordAt_zero_append h3]
  · rw [show (4 : Nat) = 3 + 1 from rfl, wordAt_succ_append 3 h0,
      show (3 : Nat) = 2 + 1 from rfl, wordAt_succ_append 2 h1,
      show (2 : Nat) = 1 + 1 from rfl, wordAt_succ_append 1 h2,
      show (1 : Nat) = 0 + 1 from rfl, wordAt_succ_append 0 h3,
      wordAt_zero_append h4]
  · rw [show (5 : Nat) = 4 + 1 from rfl, wordAt_succ_append 4 h0,
      show (4 : Nat) = 3 + 1 from rfl, wordAt_succ_append 3 h1,
      show (3 : Nat) = 2 + 1 from rfl, wordAt_succ_append 2 h2,
      show (2 : Nat) = 1 + 1 from rfl, wordAt_succ_append 1 h3,
      show (1 : Nat) = 0 + 1 from rfl, wordAt_succ_append 0 h4,
      wordAt_zero_append h5]
  · rw [show (6 : Nat) = 5 + 1 from rfl, wordAt_succ_append 5 h0,
      show (5 : Nat) = 4 + 1 from rfl, wordAt_succ_append 4 h1,
      show (4 : Nat) = 3 + 1 from rfl, wordAt_succ_append 3 h2,
      show (3 : Nat) = 2 + 1 from rfl, wordAt_succ_append 2 h3,
      show (2 : Nat) = 1 + 1 from rfl, wordAt_succ_append 1 h4,
      show (1 : Nat) = 0 + 1 from rfl, wordAt_succ_append 0 h5,
      wordAt_zero_append h6]

theorem abiEncode7_words (ad cdj : List Nat) (cl rt r s : Nat) (b : Bool) :
    wordAt (abiEncode7 ad cdj cl rt r s b) 0 = 224 ∧
    wordAt (abiEncode7 ad cdj cl rt r s b) 1
        = (224 + (dynTail ad).length) % 2 ^ 256 ∧
    wordAt (abiEncode7 ad cdj cl rt r s b) 2 = cl % 2 ^ 256 ∧
    wordAt (abiEncode7 ad cdj cl rt r s b) 3 = rt % 2 ^ 256 ∧
    wordAt (abiEncode7 ad cdj cl rt r s b) 4 = r % 2 ^ 256 ∧
    wordAt (abiEncode7 ad cdj cl rt r s b) 5 = s % 2 ^ 256 ∧
    wordAt (abiEncode7 ad cdj cl rt r s b) 6 = (if b then 1 else 0) := by
  have h := wordAt7 (beWord 224) (beWord (224 + (dynTail ad).length))
    (beWord cl) (beWord rt) (beWord r) (beWord s) (boolWord b)
    (dynTail ad ++ dynTail cdj) (beWord_length _) (beWord_length _)
    (beWord_length _) (beWord_length _) (beWord_length _) (beWord_length _)
    (boolWord_length _)
  rw [← abiEncode7_eq_nested] at h
  obtain ⟨g0, g1, g2, g3, g4, g5, g6⟩ := h
  refine ⟨?_, ?_, ?_, ?_, ?_, ?_, ?_⟩
  · rw [g0, beNat_beWord_of_lt (by norm_num)]
  · rw [g1, beNat_beWord]
  · rw [g2, beNat_beWord]
  · rw [g3, beNat_beWord]
  · rw [g4, beNat_beWord]
  · rw [g5, beNat_beWord]
  · rw [g6]
    cases b <;> simp [boolWord, beNat_beWord]

theorem abiEncode7_drop_head (ad cdj : List Nat) (cl rt r s : Nat) (b : Bool) :
    (abiEncode7 ad cdj cl rt r s b).drop 224 = dynTail ad ++ dynTail cdj := by
  rw [abiEncode7_eq_nested]
  have hlen : (beWord 224 ++ (beWord (224 + (dynTail ad).length) ++ (beWord cl
      ++ (beWord rt ++ (beWord r ++ (beWord s ++ boolWord b)))))).length
      = 224 := by
    simp [beWord_length, boolWord_length]
  have hassoc : beWord 224 ++ (beWord (224 + (dynTail ad).length) ++ (beWord cl
      ++ (beWord rt ++ (beWord r ++ (beWord s ++ (boolWord b
      ++ (dynTail ad ++ dynTail cdj)))))))
      = (beWord 224 ++ (beWord (224 + (dynTail ad).length) ++ (beWord cl
        ++ (beWord rt ++ (beWord r ++ (beWord s ++ boolWord b))))))
        ++ (dynTail ad ++ dynTail cdj) := by
    simp [List.append_assoc]
  rw [hassoc]
  exact List.drop_left' hlen

theorem padRight32_take (bs : List Nat) : (padRight32 bs).take bs.length = bs := by
  unfold padRight32
  exact List.take_left' rfl

theorem abiEncode7_dynField0 (ad cdj : List Nat) (cl rt r s : Nat) (b : Bool)
    (had : ad.length < 2 ^ 256) :
    dynFieldAt (abiEncode7 ad cdj cl rt r s b) 0 = ad := by
  have hw0 : wordAt (abiEncode7 ad cdj cl rt r s b) 0 = 224 :=
    (abiEncode7_words ad cdj cl rt r s b).1
  unfold dynFieldAt
  rw [hw0, abiEncode7_drop_head]
  have ht1 : dynTail ad ++ dynTail cdj
      = beWord ad.length ++ (padRight32 ad ++ dynTail cdj) := by
    simp [dynTail, List.append_assoc]
  have hlen : ((dynTail ad ++ dynTail cdj).take 32) = beWord ad.length := by
    rw [ht1]
    exact List.take_left' (beWord_length _)
  have hdrop : (abiEncode7 ad cdj cl rt r s b).drop (224 + 32)
      = padRight32 ad ++ dynTail cdj := by
    rw [← List.drop_drop, abiEncode7_drop_head, ht1]
    exact List.drop_left' (beWord_length _)
  rw [hdrop, hlen, beNat_beWord_of_lt had]
  have hpad : padRight32 ad ++ dynTail cdj
      = ad ++ (List.replicate ((32 - ad.length % 32) % 32) 0 ++ dynTail cdj) := by
    simp [padRight32, List.append_assoc]
  rw [hpad]
  exact List.take_left' rfl

theorem abiEncode7_dynField1 (ad cdj : List Nat) (cl rt r s : Nat) (b : Bool)
    (hoff : 224 + (dynTail ad).length < 2 ^ 256)
    (hcdj : cdj.length < 2 ^ 256) :
    dynFieldAt (abiEncode7 ad cdj cl rt r s b) 1 = cdj := by
  have hw1 : wordAt (abiEncode7 ad cdj cl rt r s b) 1
      = 224 + (dynTail ad).length := by
    rw [(abiEncode7_words ad cdj cl rt r s b).2.1, Nat.mod_eq_of_lt hoff]
  unfold dynFieldAt
  rw [hw1]
  have hdrop : (abiEncode7 ad cdj cl rt r s b).drop (224 + (dynTail ad).length)
      = dynTail cdj := by
    rw [← List.drop_drop, abiEncode7_drop_head]
    exact List.drop_left' rfl
  have hdrop2 : (abiEncode7 ad cdj cl rt r s b).drop
      (224 + (dynTail ad).length + 32) = padRight32 cdj := by
    rw [← List.drop_drop, hdrop]
    unfold dynTail
    exact List.drop_left' (beWord_length _)
  have hlen : ((dynTail cdj).take 32) = beWord cdj.length := by
    unfold dynTail
    exact List.take_left' (beWord_length _)
  rw [hdrop, hdrop2, hlen, beNat_beWord_of_lt hcdj, padRight32_take]

/-! ## Bounds on decoded values -/

theorem hexPairsToBytes_lt :
    ∀ cs bs, hexPairsToBytes cs = some bs → ∀ x ∈ bs, x < 256
  | [], bs, h => by
      simp only [hexPairsToBytes, Option.some.injEq] at h
      subst h; intro x hx; simp at hx
  | [c], bs, h => by simp [hexPairsToBytes] at h
  | c₁ :: c₂ :: rest, bs, h => by
      simp only [hexPairsToBytes, Option.bind_eq_bind, Option.bind_eq_some,
        Option.pure_def, Option.some.injEq] at h
      obtain ⟨v₁, h₁, v₂, h₂, tail, htl, rfl⟩ := h
      intro x hx
      rcases List.mem_cons.mp hx with rfl | hx
      · have hv₁ := hexVal_lt h₁
        have hv₂ := hexVal_lt h₂
        omega
      · exact hexPairsToBytes_lt rest tail htl x hx

theorem bytesFromHex_lt {s : String} {bs : List Nat}
    (h : bytesFromHex s = some bs) : ∀ x ∈ bs, x < 256 := by
  unfold bytesFromHex at h
  split at h
  · exact hexPairsToBytes_lt _ _ h
  · exact absurd h (by simp)

theorem parseAndNormalizeSig_lt {hex : String} {r s : Nat}
    (h : parseAndNormalizeSig hex = .ok (r, s)) : r < 2 ^ 256 ∧ s < 2 ^ 256 := by
  unfold parseAndNormalizeSig at h
  split at h
  · exact absurd h (by simp)
  · rename_i bs hbs
    split at h
    · rename_i hlen
      simp only [Except.ok.injEq, Prod.mk.injEq] at h
      obtain ⟨hr, hs⟩ := h
      have hall := bytesFromHex_lt hbs
      have h256 : (256 : Nat) ^ 32 = 2 ^ 256 := by norm_num
      constructor
      · have hlt := beNat_lt_of_lt (bs.take 32)
          fun x hx => hall x (List.mem_of_mem_take hx)
        rw [List.length_take, hlen] at hlt
        simpa [← hr, h256] using hlt
      · have hlt := beNat_lt_of_lt (bs.drop 32)
          fun x hx => hall x (List.mem_of_mem_drop hx)
        rw [List.length_drop, hlen] at hlt
        simpa [← hs, h256] using hlt
    · exact absurd h (by simp)

/-! ## Path lemmas for the pipeline -/

theorem runSignMessage_success (chainId : Nat) {env : SignEnv}
    (msg : SignableMessage) {resp : HttpResponse ChallengePayload}
    {body : ChallengePayload} {cred : Assertion}
    {vresp : HttpResponse VerifyResult} {v : VerifyResult}
    (h1 : env.initiateOutcome = some resp) (h2 : resp.body = some body)
    (h3 : env.assertionOutcome = some cred)
    (h4 : env.verifyOutcome = some vresp) (h5 : vresp.body = some v)
    (h6 : v.success = true) :
    runSignMessage chainId env msg
      = ([.initiateRequest (formatMessage msg), .startAuthentication,
          .verifyRequest] ++ (buildEncodedSig cred v chainId).1,
          (buildEncodedSig cred v chainId).2) := by
  simp [runSignMessage, h1, h2, h3, h4, h5, h6]

theorem runSignMessage_rejected (chainId : Nat) {env : SignEnv}
    (msg : SignableMessage) {resp : HttpResponse ChallengePayload}
    {body : ChallengePayload} {cred : Assertion}
    {vresp : HttpResponse VerifyResult} {v : VerifyResult}
    (h1 : env.initiateOutcome = some resp) (h2 : resp.body = some body)
    (h3 : env.assertionOutcome = some cred)
    (h4 : env.verifyOutcome = some vresp) (h5 : vresp.body = some v)
    (h6 : v.success = false) :
    runSignMessage chainId env msg
      = ([.initiateRequest (formatMessage msg), .startAuthentication,
          .verifyRequest], .error .serverSignatureRejected) := by
  simp [runSignMessage, h1, h2, h3, h4, h5, h6]

theorem buildEncodedSig_success (chainId : Nat) {cred : Assertion}
    {v : VerifyResult} {adBytes : List Nat} {cdj : String} {qi : QuoteIndices}
    {sigBytes : List Nat} {r s : Nat}
    (h7 : b64ToBytes v.authenticatorData = some adBytes)
    (h8 : atobString cred.clientDataJSON = some cdj)
    (h9 : findQuoteIndices cdj = .ok qi)
    (h10 : b64ToBytes v.signature = some sigBytes)
    (h11 : parseAndNormalizeSig (uint8ArrayToHexString sigBytes) = .ok (r, s)) :
    (buildEncodedSig cred v chainId).2
      = .ok (abiEncode7 adBytes (strBytes cdj) qi.beforeChallenge qi.beforeType
          r s (isRIP7212SupportedNetwork chainId)) := by
  have hhex := bytesFromHex_uint8ArrayToHexString adBytes (b64ToBytes_lt h7)
  simp [buildEncodedSig, h7, h8, h9, h10, h11, encodeAbiSignature, hhex]

theorem buildEncodedSig_ok_shape {cred : Assertion} {v : VerifyResult}
    {chainId : Nat} {out : List Nat}
    (h : (buildEncodedSig cred v chainId).2 = .ok out) :
    ∃ ad cdj cl rt r s, out
      = abiEncode7 ad cdj cl rt r s (isRIP7212SupportedNetwork chainId) := by
  unfold buildEncodedSig at h
  split at h
  next => simp at h
  next x1 adBytes hAd =>
    split at h
    next => simp at h
    next x2 cdj hCdj =>
      split at h
      next => simp at h
      next x3 qi hQi =>
        split at h
        next => simp at h
        next x4 sigBytes hSig =>
          split at h
          next => simp at h
          next x5 r0 s0 hRs =>
            split at h
            next => simp at h
            next x6 out0 hEnc =>
              have hout : out0 = out := by simpa using h
              unfold encodeAbiSignature at hEnc
              obtain ⟨ad, hba, hfa⟩ := Option.map_eq_some'.mp hEnc
              exact ⟨ad, strBytes cdj, qi.beforeChallenge, qi.beforeType,
                r0, s0, by rw [← hout]; exact hfa.symm⟩

theorem runSignMessage_ok_shape {chainId : Nat} {env : SignEnv}
    {msg : SignableMessage} {out : List Nat}
    (h : (runSignMessage chainId env msg).2 = .ok out) :
    ∃ ad cdj cl rt r s, out
      = abiEncode7 ad cdj cl rt r s (isRIP7212SupportedNetwork chainId) := by
  unfold runSignMessage at h
  split at h
  · simp at h
  · split at h
    · simp at h
    · split at h
      · simp at h
      · split at h
        · simp at h
        · split at h
          · simp at h
          · split at h
            · rename_i cred hcred vresp hvresp v hv hsucc
              exact buildEncodedSig_ok_shape h
            · simp at h

/-! ## Dummy signature in closed form -/

/-- Byte content of the placeholder authenticator data, 37 bytes of 255. -/
def dummyADBytes : List Nat := List.replicate 37 255

/-- The dummy signature bytes for a given chain id. -/
def dummyEncoded (chainId : Nat) : List Nat :=
  abiEncode7 dummyADBytes (strBytes dummyClientDataJSON) maxUint256 maxUint256
    dummyR dummyS (isRIP7212SupportedNetwork chainId)

theorem dummyADBytes_eq :
    bytesFromHex dummyAuthenticatorDataHex = some dummyADBytes := by decide

theorem getDummySignature_eq (sg : ModularSignerModel) :
    sg.getDummySignature = some (dummyEncoded sg.chainId) := by
  unfold ModularSignerModel.getDummySignature encodeAbiSignature dummyEncoded
  rw [dummyADBytes_eq]
  rfl

theorem runSignMessage_trace_head (chainId : Nat) (env : SignEnv)
    (msg : SignableMessage) :
    (runSignMessage chainId env msg).1.head?
      = some (.initiateRequest (formatMessage msg)) := by
  obtain ⟨io, ao, vo, cc⟩ := env
  rcases io with _ | ⟨ok0, body0⟩
  · rfl
  · rcases body0 with _ | pl
    · rfl
    · rcases ao with _ | cred
      · rfl
      · rcases vo with _ | ⟨okv, bodyv⟩
        · rfl
        · rcases bodyv with _ | ⟨succ, ad0, sig0⟩
          · rfl
          · rcases succ
            · rfl
            · rfl

/-! ## Concrete fixtures -/

/-- Base64 of a small client-data JSON used in the witnesses. -/
def testCDJb64 : String :=
  "eyJ0eXBlIjoid2ViYXV0aG4uZ2V0IiwiY2hhbGxlbmdlIjoiQUJDIiwib3JpZ2luIjoiaHR0cDovL3gifQ=="

/-- The decoded client-data JSON of the witness fixture. -/
def testCDJ : String :=
  "\x7b\"type\":\"webauthn.get\",\"challenge\":\"ABC\",\"origin\":\"http://x\"\x7d"

/-- Base64 of a 64-byte signature whose components decode to r = 5, s = 7. -/
def testSigB64 : String :=
  "AAAAAAAAAAAAAAAAAAAAAAAAAAAAAAAAAAAAAAAAAAUAAAAAAAAAAAAAAAAAAAAAAAAAAAAAAAAAAAAAAAAABw=="

/-- Raw bytes behind testSigB64. -/
def testSigBytes : List Nat :=
  List.replicate 31 0 ++ [5] ++ (List.replicate 31 0 ++ [7])

/-- Challenge payload fixture. -/
def testChallenge : ChallengePayload := ⟨"c", []⟩

/-- Assertion fixture. -/
def testCred : Assertion := ⟨testCDJb64⟩

/-- Successful verification fixture; the authenticator data decodes to
bytes 1, 2, 3. -/
def testVerifyOk : VerifyResult := ⟨true, "AQID", testSigB64⟩

/-- Rejected verification fixture. -/
def testVerifyBad : VerifyResult := ⟨false, "AQID", testSigB64⟩

/-- Fully successful environment fixture. -/
def testEnv : SignEnv :=
  ⟨some ⟨true, some testChallenge⟩, some testCred,
    some ⟨true, some testVerifyOk⟩, 1⟩

/-- Environment whose server rejects the assertion. -/
def testEnvRejected : SignEnv :=
  ⟨some ⟨true, some testChallenge⟩, some testCred,
    some ⟨true, some testVerifyBad⟩, 1⟩

/-- Environment whose sign-initiate response carries a failing HTTP status
together with a well-formed JSON body. -/
def testEnvInitiateFail : SignEnv :=
  ⟨some ⟨false, some testChallenge⟩, some testCred,
    some ⟨true, some testVerifyOk⟩, 1⟩

/-- A second successful environment with a different challenge body. -/
def testEnvOther : SignEnv :=
  ⟨some ⟨true, some ⟨"other", ["cred1"]⟩⟩, some testCred,
    some ⟨false, some testVerifyOk⟩, 7⟩

/-- The encoded signature the successful fixture produces. -/
def testOut : List Nat :=
  abiEncode7 [1, 2, 3] (strBytes testCDJ) 36 9 5 7 false

/-- Signer fixture on a chain without the precompile. -/
def testSigner : ModularSignerModel := ⟨some ⟨1, 2⟩, WEBAUTHN_SIGNER_CONTRACT, 1⟩

/-- Signer fixture on the chain configured with the precompile. -/
def testSigner137 : ModularSignerModel :=
  ⟨some ⟨5, 6⟩, WEBAUTHN_SIGNER_CONTRACT, 137⟩

/-! ## Claims -/

/-- C1: every EncodedSignature produced by signMessage is the ABI encoding
of exactly the 7-tuple (authenticatorData, clientDataJSON,
challengeLocation, responseTypeLocation, r, s, usePrecompiled) in that
field order, with challengeLocation taken from the challenge offset of the
locator and responseTypeLocation from its type offset: on every successful
run the result is the head/tail ABI block of that tuple, and reading the
block back field by field returns the decoded authenticator-data bytes,
the client-data JSON bytes, the two locator offsets, the normalized r and
s, and the resolver flag, in slots 0 through 6. -/
theorem C1_signMessage_is_abi_seven_tuple
    (chainId : Nat) (env : SignEnv) (msg : SignableMessage)
    (resp : HttpResponse ChallengePayload) (body : ChallengePayload)
    (cred : Assertion) (vresp : HttpResponse VerifyResult) (v : VerifyResult)
    (adBytes sigBytes : List Nat) (cdj : String) (qi : QuoteIndices)
    (r s : Nat) (out : List Nat)
    (h1 : env.initiateOutcome = some resp) (h2 : resp.body = some body)
    (h3 : env.assertionOutcome = some cred)
    (h4 : env.verifyOutcome = some vresp) (h5 : vresp.body = some v)
    (h6 : v.success = true)
    (h7 : b64ToBytes v.authenticatorData = some adBytes)
    (h8 : atobString cred.clientDataJSON = some cdj)
    (h9 : findQuoteIndices cdj = .ok qi)
    (h10 : b64ToBytes v.signature = some sigBytes)
    (h11 : parseAndNormalizeSig (uint8ArrayToHexString sigBytes) = .ok (r, s))
    (hout : abiEncode7 adBytes (strBytes cdj) qi.beforeChallenge qi.beforeType
        r s (isRIP7212SupportedNetwork chainId) = out)
    (hcl : qi.beforeChallenge < 2 ^ 256) (hrt : qi.beforeType < 2 ^ 256)
    (hlenAd : adBytes.length < 2 ^ 256)
    (hoff : 224 + (dynTail adBytes).length < 2 ^ 256)
    (hlenCdj : (strBytes cdj).length < 2 ^ 256) :
    (runSignMessage chainId env msg).2 = .ok out
    ∧ dynFieldAt out 0 = adBytes
    ∧ dynFieldAt out 1 = strBytes cdj
    ∧ wordAt out 2 = qi.beforeChallenge
    ∧ wordAt out 3 = qi.beforeType
    ∧ wordAt out 4 = r
    ∧ wordAt out 5 = s
    ∧ wordAt out 6 = (if isRIP7212SupportedNetwork chainId then 1 else 0) := by
  subst hout
  obtain ⟨hr2, hs2⟩ := parseAndNormalizeSig_lt h11
  obtain ⟨w0, w1, w2, w3, w4, w5, w6⟩ := abiEncode7_words adBytes
    (strBytes cdj) qi.beforeChallenge qi.beforeType r s
    (isRIP7212SupportedNetwork chainId)
  refine ⟨?_,
    abiEncode7_dynField0 _ _ _ _ _ _ _ hlenAd,
    abiEncode7_dynField1 _ _ _ _ _ _ _ hoff hlenCdj,
    ?_, ?_, ?_, ?_, w6⟩
  · rw [runSignMessage_success chainId msg h1 h2 h3 h4 h5 h6]
    exact buildEncodedSig_success chainId h7 h8 h9 h10 h11
  · rw [w2, Nat.mod_eq_of_lt hcl]
  · rw [w3, Nat.mod_eq_of_lt hrt]
  · rw [w4, Nat.mod_eq_of_lt hr2]
  · rw [w5, Nat.mod_eq_of_lt hs2]

/-- Witness for C1 at the concrete successful fixture. -/
theorem C1_witness :
    (runSignMessage 1 testEnv (.str "0xdead")).2 = .ok testOut
    ∧ dynFieldAt testOut 0 = [1, 2, 3]
    ∧ dynFieldAt testOut 1 = strBytes testCDJ
    ∧ wordAt testOut 2 = 36
    ∧ wordAt testOut 3 = 9
    ∧ wordAt testOut 4 = 5
    ∧ wordAt testOut 5 = 7
    ∧ wordAt testOut 6 = (if isRIP7212SupportedNetwork 1 then 1 else 0) := by
  have h := C1_signMessage_is_abi_seven_tuple 1 testEnv (.str "0xdead")
    ⟨true, some testChallenge⟩ testChallenge testCred
    ⟨true, some testVerifyOk⟩ testVerifyOk [1, 2, 3] testSigBytes testCDJ
    ⟨9, 36⟩ 5 7 testOut rfl rfl rfl rfl rfl rfl (by decide) (by decide)
    (by decide) (by decide) (by decide) rfl (by norm_num) (by norm_num)
    (by decide) (by decide) (by decide)
  exact h

/-- C2: whenever the server sign-verify response reports success false,
signMessage fails with the server-rejection error (the throw the spec
names ServerSignatureRejected) and no decoding, locating, normalizing, or
ABI-encoding step runs: the executed trace ends at the verify request and
contains no encode-phase step. -/
theorem C2_rejection_stops_pipeline
    (chainId : Nat) (env : SignEnv) (msg : SignableMessage)
    (resp : HttpResponse ChallengePayload) (body : ChallengePayload)
    (cred : Assertion) (vresp : HttpResponse VerifyResult) (v : VerifyResult)
    (h1 : env.initiateOutcome = some resp) (h2 : resp.body = some body)
    (h3 : env.assertionOutcome = some cred)
    (h4 : env.verifyOutcome = some vresp) (h5 : vresp.body = some v)
    (h6 : v.success = false) :
    (runSignMessage chainId env msg).2 = .error .serverSignatureRejected
    ∧ ∀ st ∈ (runSignMessage chainId env msg).1, st.isEncodePhase = false := by
  have h := runSignMessage_rejected chainId msg h1 h2 h3 h4 h5 h6
  constructor
  · rw [h]
  · rw [h]
    intro st hst
    simp only [List.mem_cons, List.not_mem_nil, or_false] at hst
    rcases hst with rfl | rfl | rfl <;> rfl

/-- Witness for C2 at the concrete rejected fixture. -/
theorem C2_witness :
    (runSignMessage 1 testEnvRejected (.str "0xdead")).2
      = .error .serverSignatureRejected
    ∧ ∀ st ∈ (runSignMessage 1 testEnvRejected (.str "0xdead")).1,
        st.isEncodePhase = false :=
  C2_rejection_stops_pipeline 1 testEnvRejected (.str "0xdead")
    ⟨true, some testChallenge⟩ testChallenge testCred
    ⟨true, some testVerifyBad⟩ testVerifyBad rfl rfl rfl rfl rfl rfl

/-- Counterexample to C3: with a sign-initiate response whose HTTP status
is failing but whose JSON body is well formed, the run does not fail at
the initiate step at all: it proceeds to the authenticator step and, with
the remaining environment healthy, produces an encoded signature. -/
theorem C3_counterexample :
    ((runSignMessage 1 testEnvInitiateFail (.str "0xdead")).1.contains
        .startAuthentication) = true
    ∧ (runSignMessage 1 testEnvInitiateFail (.str "0xdead")).2
        = .ok testOut := by
  constructor
  · decide
  · decide

/-- C3 (amended): the code checks no HTTP status on the sign-initiate
response; a rejected fetch propagates as a network error, but any response
whose body parses as JSON is used as is, whatever its status: flipping the
ok bit of the initiate response never changes the outcome of the run. -/
theorem C3_initiate_status_ignored
    (chainId : Nat) (env : SignEnv) (msg : SignableMessage)
    (resp : HttpResponse ChallengePayload) (b : Bool)
    (h : env.initiateOutcome = some resp) :
    runSignMessage chainId
        {env with initiateOutcome := some {resp with ok := b}} msg
      = runSignMessage chainId env msg := by
  obtain ⟨io, ao, vo, cc⟩ := env
  simp only at h
  subst h
  obtain ⟨ok0, body0⟩ := resp
  rfl

/-- Witness for the amended C3 at the failing-status fixture: the
environment with the flipped status bit is definitionally
testEnvInitiateFail with the verify outcome of testEnv. -/
theorem C3_witness :
    runSignMessage 1 testEnvInitiateFail (.str "0xdead")
      = runSignMessage 1 testEnv (.str "0xdead") :=
  C3_initiate_status_ignored 1 testEnv (.str "0xdead")
    ⟨true, some testChallenge⟩ false rfl

/-- Counterexample to C4: the r and s fields of the dummy signature are
the fixed repeated-digit placeholder constants, not the maximum uint256
value. -/
theorem C4_counterexample :
    testSigner.getDummySignature.isSome = true
    ∧ wordAt (testSigner.getDummySignature.getD []) 4 ≠ maxUint256
    ∧ wordAt (testSigner.getDummySignature.getD []) 5 ≠ maxUint256 := by
  refine ⟨by decide, by decide, by decide⟩

/-- C4 (amended): getDummySignature returns the ABI-encoded 7-tuple whose
challengeLocation and responseTypeLocation both equal maxUint256, whose r
and s are the fixed 77-digit repunit-style placeholder constants (not
maxUint256), with the fixed placeholder authenticator data and client-data
JSON, and with usePrecompiled resolved for the stored chain id. -/
theorem C4_dummy_fields (sg : ModularSignerModel) :
    sg.getDummySignature = some (dummyEncoded sg.chainId)
    ∧ wordAt (dummyEncoded sg.chainId) 2 = maxUint256
    ∧ wordAt (dummyEncoded sg.chainId) 3 = maxUint256
    ∧ wordAt (dummyEncoded sg.chainId) 4 = dummyR
    ∧ wordAt (dummyEncoded sg.chainId) 5 = dummyS
    ∧ wordAt (dummyEncoded sg.chainId) 6
        = (if isRIP7212SupportedNetwork sg.chainId then 1 else 0)
    ∧ dynFieldAt (dummyEncoded sg.chainId) 0 = dummyADBytes
    ∧ dynFieldAt (dummyEncoded sg.chainId) 1 = strBytes dummyClientDataJSON := by
  obtain ⟨w0, w1, w2, w3, w4, w5, w6⟩ := abiEncode7_words dummyADBytes
    (strBytes dummyClientDataJSON) maxUint256 maxUint256 dummyR dummyS
    (isRIP7212SupportedNetwork sg.chainId)
  have hmax : maxUint256 < 2 ^ 256 := by
    unfold maxUint256; norm_num
  have hr : dummyR < 2 ^ 256 := by unfold dummyR; norm_num
  have hs : dummyS < 2 ^ 256 := by unfold dummyS; norm_num
  refine ⟨getDummySignature_eq sg, ?_, ?_, ?_, ?_, w6,
    abiEncode7_dynField0 _ _ _ _ _ _ _ (by decide),
    abiEncode7_dynField1 _ _ _ _ _ _ _ (by decide) (by decide)⟩
  · rw [show dummyEncoded sg.chainId = abiEncode7 dummyADBytes
      (strBytes dummyClientDataJSON) maxUint256 maxUint256 dummyR dummyS
      (isRIP7212SupportedNetwork sg.chainId) from rfl, w2,
      Nat.mod_eq_of_lt hmax]
  · rw [show dummyEncoded sg.chainId = abiEncode7 dummyADBytes
      (strBytes dummyClientDataJSON) maxUint256 maxUint256 dummyR dummyS
      (isRIP7212SupportedNetwork sg.chainId) from rfl, w3,
      Nat.mod_eq_of_lt hmax]
  · rw [show dummyEncoded sg.chainId = abiEncode7 dummyADBytes
      (strBytes dummyClientDataJSON) maxUint256 maxUint256 dummyR dummyS
      (isRIP7212SupportedNetwork sg.chainId) from rfl, w4,
      Nat.mod_eq_of_lt hr]
  · rw [show dummyEncoded sg.chainId = abiEncode7 dummyADBytes
      (strBytes dummyClientDataJSON) maxUint256 maxUint256 dummyR dummyS
      (isRIP7212SupportedNetwork sg.chainId) from rfl, w5,
      Nat.mod_eq_of_lt hs]

/-- Boolean test for a hex digit character. -/
def isHexChar (c : Char) : Bool := (hexVal c).isSome

/-- Counterexample to C5: for a byte-array raw message the submitted body
is the comma-separated decimal rendering of the bytes, which is not a hex
string and differs from the hex encoding of the bytes. -/
theorem C5_counterexample :
    (runSignMessage 1 ⟨none, none, none, 1⟩ (.rawBytes [1, 2])).1
      = [.initiateRequest "1,2"]
    ∧ ("1,2").data.all isHexChar = false
    ∧ "1,2" ≠ strip0x (uint8ArrayToHexString [1, 2]) := by
  refine ⟨by decide, by decide, by decide⟩

/-- C5 (amended): signMessage submits the string content, or the raw hex
field content, with a leading 0x stripped when present but with no hex
re-encoding; a Uint8Array raw field is submitted as its default toString
rendering, the comma-separated decimal digits of its bytes, 0x-stripped,
not hex-encoded. -/
theorem C5_submitted_body (chainId : Nat) (env : SignEnv)
    (s h : String) (b : List Nat) :
    (runSignMessage chainId env (.str s)).1.head?
      = some (.initiateRequest (strip0x s))
    ∧ (runSignMessage chainId env (.rawHex h)).1.head?
      = some (.initiateRequest (strip0x h))
    ∧ (runSignMessage chainId env (.rawBytes b)).1.head?
      = some (.initiateRequest
          (strip0x (String.intercalate "," (b.map toString)))) :=
  ⟨runSignMessage_trace_head chainId env (.str s),
    runSignMessage_trace_head chainId env (.rawHex h),
    runSignMessage_trace_head chainId env (.rawBytes b)⟩

/-- C6: for every chain id, the usePrecompiled field of the dummy
signature equals the usePrecompiled field of a real EncodedSignature
produced by signMessage on the same signer, and both equal the resolver
verdict for the chain id stored in the signer. -/
theorem C6_dummy_matches_real_usePrecompiled
    (sg : ModularSignerModel) (env : SignEnv) (msg : SignableMessage)
    (out dout : List Nat)
    (hreal : (sg.signMessage env msg).2 = .ok out)
    (hdummy : sg.getDummySignature = some dout) :
    wordAt out 6 = wordAt dout 6
    ∧ wordAt out 6 = (if isRIP7212SupportedNetwork sg.chainId then 1 else 0) := by
  have hreal2 : (runSignMessage sg.chainId env msg).2 = .ok out := hreal
  obtain ⟨ad, cdj, cl, rt, r, s, rfl⟩ := runSignMessage_ok_shape hreal2
  have hw6 := (abiEncode7_words ad cdj cl rt r s
    (isRIP7212SupportedNetwork sg.chainId)).2.2.2.2.2.2
  have hd : dout = dummyEncoded sg.chainId := by
    rw [getDummySignature_eq sg] at hdummy
    exact (Option.some.inj hdummy).symm
  subst hd
  have hw6d := (abiEncode7_words dummyADBytes (strBytes dummyClientDataJSON)
    maxUint256 maxUint256 dummyR dummyS
    (isRIP7212SupportedNetwork sg.chainId)).2.2.2.2.2.2
  have hdw : wordAt (dummyEncoded sg.chainId) 6
      = (if isRIP7212SupportedNetwork sg.chainId then 1 else 0) := hw6d
  exact ⟨by rw [hw6, hdw], hw6⟩

/-- Witness for C6 at the successful fixture on chain 1. -/
theorem C6_witness :
    wordAt testOut 6 = wordAt (dummyEncoded 1) 6
    ∧ wordAt testOut 6 = (if isRIP7212SupportedNetwork 1 then 1 else 0) :=
  C6_dummy_matches_real_usePrecompiled testSigner testEnv (.str "0xdead")
    testOut (dummyEncoded 1) (by decide) (getDummySignature_eq testSigner)

/-- C7: when the typed-data validation verdict is negative, signTypedData
fails with the invalid-typed-data error before anything else happens: the
executed trace is empty, so in particular no network call is made. -/
theorem C7_invalid_typed_data_no_network
    (chainId : Nat) (env : SignEnv) (td : TypedDataInput)
    (h : td.valid = false) :
    runSignTypedData chainId env td = ([], .error .invalidTypedData)
    ∧ ∀ st ∈ (runSignTypedData chainId env td).1, st.isNetworkCall = false := by
  have he : runSignTypedData chainId env td = ([], .error .invalidTypedData) := by
    simp [runSignTypedData, h]
  refine ⟨he, ?_⟩
  rw [he]
  intro st hst
  simp at hst

/-- Witness for C7 at a concrete invalid typed-data input. -/
theorem C7_witness :
    runSignTypedData 1 testEnv ⟨false, "0xhash"⟩
      = ([], .error .invalidTypedData)
    ∧ ∀ st ∈ (runSignTypedData 1 testEnv ⟨false, "0xhash"⟩).1,
        st.isNetworkCall = false :=
  C7_invalid_typed_data_no_network 1 testEnv ⟨false, "0xhash"⟩ rfl

/-- C8: the signature-building step is pure in the triple (assertion,
verification result, chain id): two runs whose environments agree on the
assertion and the parsed verification body, over the same chain id,
produce the same result after the verify response, whatever their messages
and initiate bodies were. -/
theorem C8_encoding_pure_in_triple
    (chainId : Nat) (env₁ env₂ : SignEnv) (msg₁ msg₂ : SignableMessage)
    (resp₁ resp₂ : HttpResponse ChallengePayload)
    (body₁ body₂ : ChallengePayload) (cred : Assertion)
    (vresp₁ vresp₂ : HttpResponse VerifyResult) (v : VerifyResult)
    (h1 : env₁.initiateOutcome = some resp₁) (h2 : resp₁.body = some body₁)
    (h3 : env₂.initiateOutcome = some resp₂) (h4 : resp₂.body = some body₂)
    (h5 : env₁.assertionOutcome = some cred)
    (h6 : env₂.assertionOutcome = some cred)
    (h7 : env₁.verifyOutcome = some vresp₁) (h8 : vresp₁.body = some v)
    (h9 : env₂.verifyOutcome = some vresp₂) (h10 : vresp₂.body = some v) :
    (runSignMessage chainId env₁ msg₁).2 = (runSignMessage chainId env₂ msg₂).2 := by
  cases hs : v.success
  · rw [runSignMessage_rejected chainId msg₁ h1 h2 h5 h7 h8 hs,
      runSignMessage_rejected chainId msg₂ h3 h4 h6 h9 h10 hs]
  · rw [runSignMessage_success chainId msg₁ h1 h2 h5 h7 h8 hs,
      runSignMessage_success chainId msg₂ h3 h4 h6 h9 h10 hs]

/-- Witness for C8: two environments differing in message, initiate body,
verify status bit and current chain, agreeing on the triple. -/
theorem C8_witness :
    (runSignMessage 1 testEnv (.str "0xdead")).2
      = (runSignMessage 1 testEnvOther (.str "0xbeef")).2 :=
  C8_encoding_pure_in_triple 1 testEnv testEnvOther (.str "0xdead")
    (.str "0xbeef") ⟨true, some testChallenge⟩ ⟨true, some ⟨"other", ["cred1"]⟩⟩
    testChallenge ⟨"other", ["cred1"]⟩ testCred ⟨true, some testVerifyOk⟩
    ⟨false, some testVerifyOk⟩ testVerifyOk rfl rfl rfl rfl rfl rfl rfl rfl
    rfl rfl

theorem toWebAuthnSigner_ok_elim {cenv : ConstructionEnv}
    {params : WebAuthnModularSignerParams} {sg : ModularSignerModel}
    (h : toWebAuthnSigner cenv params = .ok sg) :
    (∃ k, sg.pubKey = some k) ∧ sg.chainId = cenv.clientChainId := by
  rcases hp : params.pubKey with _ | k
  · rcases hq : cenv.provisionedKey with _ | k
    · simp [toWebAuthnSigner, hp, hq] at h
    · simp only [toWebAuthnSigner, hp, hq, Except.ok.injEq] at h
      subst h
      exact ⟨⟨k, rfl⟩, rfl⟩
  · simp only [toWebAuthnSigner, hp, Except.ok.injEq] at h
    subst h
    exact ⟨⟨k, rfl⟩, rfl⟩

/-- C9: on every successfully constructed signer, getSignerData never
fails: construction throws when no key is available, so the stored key is
always present, the missing-key branch of getSignerData is unreachable,
and getSignerData returns the ABI-encoded (pubX, pubY) of the stored
key. -/
theorem C9_getSignerData_total
    (cenv : ConstructionEnv) (params : WebAuthnModularSignerParams)
    (sg : ModularSignerModel)
    (h : toWebAuthnSigner cenv params = .ok sg) :
    sg.pubKey.isSome = true
    ∧ sg.getSignerData
        = .ok (abiEncode2 (sg.pubKey.getD ⟨0, 0⟩).pubX
            (sg.pubKey.getD ⟨0, 0⟩).pubY)
    ∧ ∀ e : SignError, sg.getSignerData ≠ .error e := by
  obtain ⟨⟨k, hk⟩, _⟩ := toWebAuthnSigner_ok_elim h
  refine ⟨by rw [hk]; rfl, ?_, ?_⟩
  · simp [ModularSignerModel.getSignerData, hk]
  · intro e
    simp [ModularSignerModel.getSignerData, hk]

/-- Witness for C9 at a concrete construction falling back to the
provisioned key. -/
theorem C9_witness :
    (⟨some ⟨5, 6⟩, WEBAUTHN_SIGNER_CONTRACT, 10⟩
        : ModularSignerModel).pubKey.isSome = true
    ∧ (⟨some ⟨5, 6⟩, WEBAUTHN_SIGNER_CONTRACT, 10⟩
        : ModularSignerModel).getSignerData
        = .ok (abiEncode2
            ((⟨some ⟨5, 6⟩, WEBAUTHN_SIGNER_CONTRACT, 10⟩
              : ModularSignerModel).pubKey.getD ⟨0, 0⟩).pubX
            ((⟨some ⟨5, 6⟩, WEBAUTHN_SIGNER_CONTRACT, 10⟩
              : ModularSignerModel).pubKey.getD ⟨0, 0⟩).pubY)
    ∧ ∀ e : SignError,
        (⟨some ⟨5, 6⟩, WEBAUTHN_SIGNER_CONTRACT, 10⟩
          : ModularSignerModel).getSignerData ≠ .error e :=
  C9_getSignerData_total ⟨some ⟨5, 6⟩, 10⟩ ⟨none, none⟩
    ⟨some ⟨5, 6⟩, WEBAUTHN_SIGNER_CONTRACT, 10⟩ rfl

/-- C10: the chain id is resolved exactly once, at construction: the
signer stores the construction-time chain id; signMessage and
signTypedData results are unaffected by any later value of the current
chain of the client; and every successful signMessage, signTypedData and
dummy-signature output carries the resolver verdict for the
construction-time chain id in its usePrecompiled slot. -/
theorem C10_chainId_fixed_at_construction
    (cenv : ConstructionEnv) (params : WebAuthnModularSignerParams)
    (sg : ModularSignerModel)
    (h : toWebAuthnSigner cenv params = .ok sg) :
    sg.chainId = cenv.clientChainId
    ∧ (∀ (env : SignEnv) (msg : SignableMessage) (c : Nat),
        sg.signMessage {env with currentChainId := c} msg
          = sg.signMessage env msg)
    ∧ (∀ (env : SignEnv) (td : TypedDataInput) (c : Nat),
        sg.signTypedData {env with currentChainId := c} td
          = sg.signTypedData env td)
    ∧ (∀ (env : SignEnv) (msg : SignableMessage) (out : List Nat),
        (sg.signMessage env msg).2 = .ok out →
        wordAt out 6
          = (if isRIP7212SupportedNetwork cenv.clientChainId then 1 else 0))
    ∧ (∀ (env : SignEnv) (td : TypedDataInput) (out : List Nat),
        (sg.signTypedData env td).2 = .ok out →
        wordAt out 6
          = (if isRIP7212SupportedNetwork cenv.clientChainId then 1 else 0))
    ∧ ∀ dout : List Nat, sg.getDummySignature = some dout →
        wordAt dout 6
          = (if isRIP7212SupportedNetwork cenv.clientChainId then 1 else 0) := by
  obtain ⟨_, hc⟩ := toWebAuthnSigner_ok_elim h
  refine ⟨hc, ?_, ?_, ?_, ?_, ?_⟩
  · intro env msg c
    obtain ⟨io, ao, vo, cc⟩ := env
    rfl
  · intro env td c
    obtain ⟨io, ao, vo, cc⟩ := env
    rfl
  · intro env msg out hout
    have hout2 : (runSignMessage sg.chainId env msg).2 = .ok out := hout
    obtain ⟨ad, cdj, cl, rt, r, s, rfl⟩ := runSignMessage_ok_shape hout2
    rw [← hc]
    exact (abiEncode7_words ad cdj cl rt r s
      (isRIP7212SupportedNetwork sg.chainId)).2.2.2.2.2.2
  · intro env td out hout
    have hout2 : (runSignTypedData sg.chainId env td).2 = .ok out := hout
    by_cases htd : td.valid
    · unfold runSignTypedData at hout2
      rw [if_pos htd] at hout2
      obtain ⟨ad, cdj, cl, rt, r, s, rfl⟩ := runSignMessage_ok_shape hout2
      rw [← hc]
      exact (abiEncode7_words ad cdj cl rt r s
        (isRIP7212SupportedNetwork sg.chainId)).2.2.2.2.2.2
    · unfold runSignTypedData at hout2
      rw [if_neg htd] at hout2
      simp at hout2
  · intro dout hdout
    rw [getDummySignature_eq sg] at hdout
    obtain rfl := (Option.some.inj hdout).symm
    rw [← hc]
    exact (abiEncode7_words dummyADBytes (strBytes dummyClientDataJSON)
      maxUint256 maxUint256 dummyR dummyS
      (isRIP7212SupportedNetwork sg.chainId)).2.2.2.2.2.2

/-- Witness for C10 at a concrete construction on the precompile chain. -/
theorem C10_witness :
    testSigner137.chainId = 137
    ∧ testSigner137.signMessage {testEnv with currentChainId := 99}
        (.str "0xdead")
      = testSigner137.signMessage testEnv (.str "0xdead")
    ∧ wordAt (dummyEncoded 137) 6
      = (if isRIP7212SupportedNetwork 137 then 1 else 0) := by
  have h := C10_chainId_fixed_at_construction ⟨some ⟨5, 6⟩, 137⟩
    ⟨none, none⟩ testSigner137 (by decide)
  exact ⟨h.1, h.2.1 testEnv (.str "0xdead") 99,
    h.2.2.2.2.2 (dummyEncoded 137) (getDummySignature_eq testSigner137)⟩

end WebAuthnSigner
